import Mathlib

/-!
# Verification of `setup.py` (orangebox)

A shallow embedding of the orangebox setup program's core logic:

* the generic reconciliation helper `create` defined inside `setup_maas`
  (build the set of identity-key tuples of the existing objects, create
  exactly the desired objects whose key tuple is absent, in order);
* the bounded readiness-wait loops of `setup_networking` (60 ping attempts
  for the network, 60 for DNS, `sys.exit(1)` on exhaustion);
* the unbounded import-completion wait loop of `setup_maas`
  (`while True: if not is_importing(): break; sleep(15)`);
* the per-slot node-discovery workflow `setup_node` and its fan-out
  `setup_maas_nodes` (slots 1..10, zone index `num // 6`);
* `calculate_ob_num` and the `--ob-num` argument handling in `main`.

Remote calls and subprocess invocations are modelled by explicit oracles
(`NodeEnv`, boolean check sequences) and the effects the code performs
(create calls, sleeps, log lines) are returned as explicit traces.
-/

namespace Orangebox

/-! ## Reconciliation helper (`create` in `setup_maas`)

Python source:
```
def create(existing, desired, keys=("name",)):
    existing_keys = set(tuple(getattr(e, key) for key in keys) for e in existing)
    to_create = [
        o for o in desired if tuple(o[key] for key in keys) not in existing_keys
    ]
    for obj in to_create:
        existing.__class__.create(**obj)
```
Objects (both the `existing` objects, whose attributes are read with
`getattr`, and the `desired` dicts, indexed with `o[key]`) are modelled
as association lists from attribute name to string value.  The object
produced by `existing.__class__.create(**obj)` is modelled as the
attribute map `obj` itself.  The Python function returns `None`; its
effect trace is the list of payloads passed to `create`, in order. -/

/-- An attribute map: attribute name to value. -/
abbrev AttrMap := List (String × String)

/-- Attribute lookup, `getattr(e, key)` / `o[key]` (a missing attribute,
which would raise in Python, is `none`). -/
def getVal (o : AttrMap) (k : String) : Option String :=
  (o.find? (fun p => p.1 == k)).map Prod.snd

/-- Python `tuple(getattr(e, key) for key in keys)`. -/
def keyTuple (keys : List String) (o : AttrMap) : List (Option String) :=
  keys.map (getVal o)

/-- Python `existing_keys = set(tuple(...) for e in existing)` — the set is
modelled as the deduplicated list of key tuples. -/
def existingKeySet (existing : List AttrMap) (keys : List String) :
    List (List (Option String)) :=
  (existing.map (keyTuple keys)).dedup

/-- Python `to_create`: the desired objects whose key tuple is absent from the
set of existing key tuples, in the order they appear in `desired`. -/
def to_create (existing desired : List AttrMap) (keys : List String) :
    List AttrMap :=
  desired.filter (fun o => !(decide (keyTuple keys o ∈ existingKeySet existing keys)))

/-- The whole `create` call: first component is the trace of payloads
passed to `existing.__class__.create(**obj)` (in loop order), second
component is the Python return value of the function, which is `None` —
the function has no `return` statement, so it never hands the created
objects back. -/
def create (existing desired : List AttrMap) (keys : List String) :
    List AttrMap × Option (List AttrMap) :=
  (to_create existing desired keys, none)

/-- Membership in the modelled key set is membership in the mapped list. -/
theorem mem_existingKeySet (existing : List AttrMap) (keys : List String)
    (t : List (Option String)) :
    t ∈ existingKeySet existing keys ↔ t ∈ existing.map (keyTuple keys) := by
  simp [existingKeySet, List.mem_dedup]

/-- Characterisation of membership in `to_create`. -/
theorem mem_to_create (existing desired : List AttrMap) (keys : List String)
    (o : AttrMap) :
    o ∈ to_create existing desired keys ↔
      o ∈ desired ∧ keyTuple keys o ∉ existing.map (keyTuple keys) := by
  simp [to_create, List.mem_filter, mem_existingKeySet]

/-- The concrete boot-source-selection example: existing has (ubuntu, focal). -/
def exFocal : AttrMap := [("os", "ubuntu"), ("release", "focal")]

/-- Desired: (ubuntu, focal) then (ubuntu, bionic). -/
def exBionic : AttrMap := [("os", "ubuntu"), ("release", "bionic")]

/-- The identity key fields of boot-source selections. -/
def selKeys : List String := ["os", "release"]

/-- C2: `create` issues a create call for exactly those desired items whose
identity-key tuple is absent from the key tuples of the existing list, in
the order the items appear in the desired list; with existing containing
only (os=ubuntu, release=focal) and desired containing (ubuntu, focal) and
(ubuntu, bionic) keyed by (os, release), exactly one create occurs, for
bionic. -/
theorem create_diff_correct :
    (∀ existing desired keys o,
        o ∈ (create existing desired keys).1 ↔
          o ∈ desired ∧ keyTuple keys o ∉ existing.map (keyTuple keys))
    ∧ (∀ existing desired keys,
        List.Sublist (create existing desired keys).1 desired)
    ∧ (create [exFocal] [exFocal, exBionic] selKeys).1 = [exBionic] := by
  refine ⟨?_, ?_, ?_⟩
  · intro e d k o
    exact mem_to_create e d k o
  · intro e d k
    exact List.filter_sublist d
  · decide

/-- C3: running the reconcile diff a second time, with the existing list
extended by the objects the first call created, performs zero creates, for
every existing list, desired list and key list (duplicate-by-key desired
entries included). -/
theorem to_create_idempotent :
    ∀ existing desired keys,
      to_create (existing ++ to_create existing desired keys) desired keys = [] := by
  intro e d k
  simp only [to_create, List.filter_eq_nil_iff]
  intro o ho
  simp only [Bool.not_eq_eq_eq_not, Bool.not_true, decide_eq_false_iff_not, Decidable.not_not,
    mem_existingKeySet, List.map_append, List.mem_append]
  by_cases h : keyTuple k o ∈ e.map (keyTuple k)
  · exact Or.inl h
  · refine Or.inr (List.mem_map_of_mem _ ?_)
    rw [List.mem_filter]
    exact ⟨ho, by simp [h]⟩

/-- C7 fails on the code: on the boot-source-selection example one create
occurs (bionic is missing), yet the function's return value is `None` —
it does not contain the created object, so the result does not consist of
the objects created during the call. -/
theorem create_no_result_cex :
    ((create [exFocal] [exFocal, exBionic] selKeys).2).isNone = true
    ∧ (create [exFocal] [exFocal, exBionic] selKeys).1.length = 1 := by
  decide

/-- C7 amended: `create` issues exactly one create per desired item whose
key tuple is absent from the existing list's key tuples (in desired-list
order), but it returns `None` — the created objects are not collected or
returned to the caller. -/
theorem create_amended :
    ∀ existing desired keys,
      (create existing desired keys).2 = none
      ∧ (create existing desired keys).1
          = desired.filter
              (fun o => !(decide (keyTuple keys o ∈ existing.map (keyTuple keys)))) := by
  intro e d k
  refine ⟨rfl, ?_⟩
  apply List.filter_congr
  intro o _
  simp [mem_existingKeySet]

/-- Witness for C2 at the boot-source-selection example. -/
theorem create_diff_correct_w :
    exBionic ∈ (create [exFocal] [exFocal, exBionic] selKeys).1
    ∧ List.Sublist (create [exFocal] [exFocal, exBionic] selKeys).1
        [exFocal, exBionic] :=
  ⟨(create_diff_correct.1 [exFocal] [exFocal, exBionic] selKeys exBionic).2
      ⟨by decide, by decide⟩,
    create_diff_correct.2.1 [exFocal] [exFocal, exBionic] selKeys⟩

/-- Witness for C3 at the boot-source-selection example. -/
theorem to_create_idempotent_w :
    to_create ([exFocal] ++ to_create [exFocal] [exFocal, exBionic] selKeys)
      [exFocal, exBionic] selKeys = [] :=
  to_create_idempotent [exFocal] [exFocal, exBionic] selKeys

/-- Witness for the amended C7 at the boot-source-selection example. -/
theorem create_amended_w :
    (create [exFocal] [exFocal, exBionic] selKeys).2 = none
    ∧ (create [exFocal] [exFocal, exBionic] selKeys).1
        = [exFocal, exBionic].filter
            (fun o => !(decide (keyTuple selKeys o ∈ [exFocal].map (keyTuple selKeys)))) :=
  create_amended [exFocal] [exFocal, exBionic] selKeys

/-! ## Readiness loops (`setup_networking`, `setup_maas`)

Python source of the network wait (the DNS wait is identical except for
the pinged name and the extra caught exception type):
```
for _ in range(60):
    try:
        ping("-c1", "8.8.8.8")
        break
    except sh.ErrorReturnCode_1:
        print(" - Still waiting for 8.8.8.8...")
else:
    print("Waited too long for network to come up.")
    print("Please fix the network.")
    sys.exit(1)
```
The ping outcome at each attempt is an oracle `check : Nat → Bool`
(`true` = the ping exited 0, so the `try` body breaks out of the loop). -/

/-- Result of one bounded wait loop: how many times the check ran, how
many seconds were spent in `time.sleep` calls between attempts, and
whether the loop broke out on a successful check (`success = false`
means the `for` loop's `else` branch runs). -/
structure PollResult where
  calls : Nat
  sleepSeconds : Nat
  success : Bool
deriving DecidableEq

/-- The bounded wait loop, starting at attempt index `i` with the given
number of remaining iterations.  The loop body contains no `time.sleep`
call — a failed attempt only prints a message — so `sleepSeconds` never
increases. -/
def waitLoop (check : Nat → Bool) (i : Nat) : Nat → PollResult
  | 0 => { calls := 0, sleepSeconds := 0, success := false }
  | fuel + 1 =>
    if check i then { calls := 1, sleepSeconds := 0, success := true }
    else
      let r := waitLoop check (i + 1) fuel
      { r with calls := r.calls + 1 }

/-- The "waiting for network to come up" loop: 60 attempts. -/
def networkWait (check : Nat → Bool) : PollResult :=
  waitLoop check 0 60

/-- The "waiting for DNS to come up" loop: 60 attempts. -/
def dnsWait (check : Nat → Bool) : PollResult :=
  waitLoop check 0 60

theorem waitLoop_calls_le (check : Nat → Bool) :
    ∀ fuel i, (waitLoop check i fuel).calls ≤ fuel := by
  intro fuel
  induction fuel with
  | zero => intro i; simp [waitLoop]
  | succ f ih =>
    intro i
    by_cases h : check i
    · simp [waitLoop, h]
    · simpa [waitLoop, h] using ih (i + 1)

theorem waitLoop_sleep_zero (check : Nat → Bool) :
    ∀ fuel i, (waitLoop check i fuel).sleepSeconds = 0 := by
  intro fuel
  induction fuel with
  | zero => intro i; simp [waitLoop]
  | succ f ih =>
    intro i
    by_cases h : check i
    · simp [waitLoop, h]
    · simpa [waitLoop, h] using ih (i + 1)

theorem waitLoop_all_false (check : Nat → Bool) :
    ∀ fuel i, (∀ j, j < fuel → check (i + j) = false) →
      waitLoop check i fuel = { calls := fuel, sleepSeconds := 0, success := false } := by
  intro fuel
  induction fuel with
  | zero => intro i _; rfl
  | succ f ih =>
    intro i h
    have h0 : check i = false := by simpa using h 0 (Nat.succ_pos f)
    have hrec := ih (i + 1) (fun j hj => by
      have := h (j + 1) (Nat.succ_lt_succ hj)
      simpa [Nat.add_assoc, Nat.add_comm 1 j] using this)
    simp [waitLoop, h0, hrec]

theorem waitLoop_first_true (check : Nat → Bool) :
    ∀ k fuel i, k < fuel → check (i + k) = true →
      (∀ j, j < k → check (i + j) = false) →
      waitLoop check i fuel = { calls := k + 1, sleepSeconds := 0, success := true } := by
  intro k
  induction k with
  | zero =>
    intro fuel i hk hc _
    match fuel, hk with
    | f + 1, _ =>
      have : check i = true := by simpa using hc
      simp [waitLoop, this]
  | succ k ih =>
    intro fuel i hk hc hprev
    match fuel, hk with
    | f + 1, hk =>
      have h0 : check i = false := by simpa using hprev 0 (Nat.succ_pos k)
      have hc' : check (i + 1 + k) = true := by
        simpa [Nat.add_assoc, Nat.add_comm 1 k] using hc
      have hprev' : ∀ j, j < k → check (i + 1 + j) = false := fun j hj => by
        have := hprev (j + 1) (Nat.succ_lt_succ hj)
        simpa [Nat.add_assoc, Nat.add_comm 1 j] using this
      have hrec := ih f (i + 1) (Nat.lt_of_succ_lt_succ hk) hc' hprev'
      simp [waitLoop, h0, hrec]

/-- A check that fails on the first attempt and succeeds on the second. -/
def failThenOk : Nat → Bool := fun n => n != 0

/-- C5 fails on the code: with a check that fails once and then succeeds,
the network wait loop makes 2 calls — so there is a failed attempt
followed by another attempt — yet it performs zero seconds of sleeping:
the loop body has no sleep between failed attempts. -/
theorem networkWait_no_sleep_cex :
    networkWait failThenOk = { calls := 2, sleepSeconds := 0, success := true }
    ∧ failThenOk 0 = false := by
  exact ⟨rfl, rfl⟩

/-- C5 amended: the network/DNS wait loops call their check at most 60
times (maxAttempts = 60), return success immediately on the first attempt
whose check is true, and fall through to the fatal `else` branch after
exactly 60 failed attempts, not more; but they never sleep between failed
attempts — the loop body only prints, the probe's own duration being the
only pacing. -/
theorem waitLoop_bound_amended :
    ∀ check : Nat → Bool,
      (networkWait check).calls ≤ 60
      ∧ (dnsWait check).calls ≤ 60
      ∧ (networkWait check).sleepSeconds = 0
      ∧ ((∀ i, i < 60 → check i = false) →
          networkWait check = { calls := 60, sleepSeconds := 0, success := false }
          ∧ dnsWait check = { calls := 60, sleepSeconds := 0, success := false })
      ∧ (∀ k, k < 60 → check k = true → (∀ i, i < k → check i = false) →
          networkWait check = { calls := k + 1, sleepSeconds := 0, success := true }) := by
  intro check
  refine ⟨waitLoop_calls_le check 60 0, waitLoop_calls_le check 60 0,
    waitLoop_sleep_zero check 60 0, ?_, ?_⟩
  · intro h
    have := waitLoop_all_false check 60 0 (fun j hj => by simpa using h j hj)
    exact ⟨this, this⟩
  · intro k hk hc hprev
    exact waitLoop_first_true check k 60 0 hk (by simpa using hc)
      (fun j hj => by simpa using hprev j hj)

/-- Witness for the amended C5 at a concrete check. -/
theorem waitLoop_bound_amended_w :
    failThenOk 1 = true
    ∧ networkWait failThenOk = { calls := 2, sleepSeconds := 0, success := true } :=
  ⟨by decide,
    (waitLoop_bound_amended failThenOk).2.2.2.2 1 (by decide) (by decide) (by decide)⟩

/-! ## Import-completion wait (`setup_maas`)

Python source:
```
while True:
    if not client._origin.session.BootResources.is_importing():
        break
    print(" - Waiting for boot resources importing...")
    time.sleep(15)
```
The `is_importing` outcome at each poll is an oracle `imp : Nat → Bool`.
The loop has no attempt bound and no exit path other than the `break`
taken when the check first returns `false`. -/

/-- The import wait loop, run with explicit fuel (a modelling artefact:
the Python loop is unbounded).  Returns `some (calls, sleepSeconds)` when
the loop breaks within `fuel` iterations — `calls` polls of
`is_importing`, `sleepSeconds` seconds spent in `time.sleep(15)` calls —
and `none` when `fuel` iterations were not enough (the real loop would
simply keep polling).  No branch aborts the run. -/
def importLoop (imp : Nat → Bool) : Nat → Nat → Option (Nat × Nat)
  | 0, _ => none
  | fuel + 1, i =>
    if imp i then
      match importLoop imp fuel (i + 1) with
      | some (c, s) => some (c + 1, s + 15)
      | none => none
    else some (1, 0)

theorem importLoop_first_false (imp : Nat → Bool) :
    ∀ n fuel i, (∀ j, j < n → imp (i + j) = true) → imp (i + n) = false →
      n < fuel → importLoop imp fuel i = some (n + 1, 15 * n) := by
  intro n
  induction n with
  | zero =>
    intro fuel i _ hfalse hfuel
    match fuel, hfuel with
    | f + 1, _ =>
      have : imp i = false := by simpa using hfalse
      simp [importLoop, this]
  | succ n ih =>
    intro fuel i htrue hfalse hfuel
    match fuel, hfuel with
    | f + 1, hfuel =>
      have h0 : imp i = true := by simpa using htrue 0 (Nat.succ_pos n)
      have htrue' : ∀ j, j < n → imp (i + 1 + j) = true := fun j hj => by
        have := htrue (j + 1) (Nat.succ_lt_succ hj)
        simpa [Nat.add_assoc, Nat.add_comm 1 j] using this
      have hfalse' : imp (i + 1 + n) = false := by
        simpa [Nat.add_assoc, Nat.add_comm 1 n] using hfalse
      have hrec := ih f (i + 1) htrue' hfalse' (Nat.lt_of_succ_lt_succ hfuel)
      simp [importLoop, h0, hrec, Nat.mul_succ, Nat.add_comm]

/-- C8: the import-completion wait polls the check once per iteration
with a fixed 15-second sleep between attempts, never aborts the run, and
terminates exactly when the check first reports the import is no longer
running: if the check is true for the first `n` polls and false at poll
`n`, the loop exits after exactly `n + 1` polls and `15 * n` seconds of
sleeping, for every `n` — there is no attempt cap, any sufficient fuel
reaches the same exit and no `sys.exit` path exists in the loop. -/
theorem importLoop_unbounded_nonfatal :
    ∀ (imp : Nat → Bool) (n fuel : Nat),
      (∀ j, j < n → imp j = true) → imp n = false → n < fuel →
      importLoop imp fuel 0 = some (n + 1, 15 * n) := by
  intro imp n fuel htrue hfalse hfuel
  exact importLoop_first_false imp n fuel 0
    (fun j hj => by simpa using htrue j hj) (by simpa using hfalse) hfuel

/-- A check that reports "importing" twice, then done. -/
def importTwice : Nat → Bool := fun n => n == 0 || n == 1

/-- Witness for C8 at a concrete check: two busy polls, then done —
three polls total and 30 seconds asleep. -/
theorem importLoop_unbounded_nonfatal_w :
    importTwice 2 = false ∧ importLoop importTwice 5 0 = some (3, 30) :=
  ⟨by decide,
    importLoop_unbounded_nonfatal importTwice 2 5 (by decide) (by decide) (by decide)⟩

/-! ## Fatal readiness timeouts and `main`'s stage order -/

/-- The stages the body of `main` runs, in order, inside the
`with sh.contrib.sudo` block. -/
inductive RunStage
  | networking
  | aptStage
  | niceties
  | sshStage
  | maasStage
  | nodesStage
deriving DecidableEq

/-- Outcome of `setup_networking`'s two readiness waits: `none` when both
eventually succeeded, otherwise the `sys.exit` code together with the
lines printed just before exiting.  The DNS wait only runs when the
network wait broke out successfully. -/
def setup_networking_result (netCheck dnsCheck : Nat → Bool) :
    Option (Nat × List String) :=
  if (networkWait netCheck).success then
    if (dnsWait dnsCheck).success then none
    else some (1, ["Waited too long for DNS to come up.", "Please fix the DNS."])
  else some (1, ["Waited too long for network to come up.", "Please fix the network."])

/-- The sequential body of `main`: `setup_networking` runs first, and a
`sys.exit` inside it terminates the process before any later stage runs.
The stages that did start are recorded in order; `setup_maas` (controller
provisioning) and `setup_maas_nodes` (node discovery) come after
`setup_apt`, `setup_niceties` and `setup_ssh`. -/
def mainRun (netCheck dnsCheck : Nat → Bool) :
    List RunStage × Option (Nat × List String) :=
  match setup_networking_result netCheck dnsCheck with
  | some e => ([RunStage.networking], some e)
  | none =>
      ([RunStage.networking, RunStage.aptStage, RunStage.niceties,
        RunStage.sshStage, RunStage.maasStage, RunStage.nodesStage], none)

/-- C9: if the network readiness check or the DNS readiness check never
succeeds within its 60 attempts, the process exits with code 1 and a
non-empty explanatory message, and neither controller provisioning
(`setup_maas`) nor node discovery (`setup_maas_nodes`) is reached. -/
theorem readiness_timeout_aborts :
    ∀ netCheck dnsCheck : Nat → Bool,
      ((∀ i, i < 60 → netCheck i = false) ∨ (∀ i, i < 60 → dnsCheck i = false)) →
      ∃ msgs, (mainRun netCheck dnsCheck).2 = some (1, msgs) ∧ msgs ≠ []
        ∧ RunStage.maasStage ∉ (mainRun netCheck dnsCheck).1
        ∧ RunStage.nodesStage ∉ (mainRun netCheck dnsCheck).1 := by
  intro net dns h
  have hnet : (∀ i, i < 60 → net i = false) →
      waitLoop net 0 60 = { calls := 60, sleepSeconds := 0, success := false } :=
    fun hh => waitLoop_all_false net 60 0 (fun j hj => by simpa using hh j hj)
  have hdns : (∀ i, i < 60 → dns i = false) →
      waitLoop dns 0 60 = { calls := 60, sleepSeconds := 0, success := false } :=
    fun hh => waitLoop_all_false dns 60 0 (fun j hj => by simpa using hh j hj)
  rcases h with h | h
  · have hfail : (networkWait net).success = false := by
      rw [networkWait, hnet h]
    refine ⟨["Waited too long for network to come up.", "Please fix the network."],
      ?_, by simp, ?_, ?_⟩ <;>
      simp [mainRun, setup_networking_result, hfail]
  · by_cases hn : (networkWait net).success
    · have hfail : (dnsWait dns).success = false := by
        rw [dnsWait, hdns h]
      refine ⟨["Waited too long for DNS to come up.", "Please fix the DNS."],
        ?_, by simp, ?_, ?_⟩ <;>
        simp [mainRun, setup_networking_result, hn, hfail]
    · refine ⟨["Waited too long for network to come up.", "Please fix the network."],
        ?_, by simp, ?_, ?_⟩ <;>
        simp [mainRun, setup_networking_result, hn]

/-- A check that never succeeds. -/
def neverUp : Nat → Bool := fun _ => false

/-- Witness for C9 with checks that never succeed. -/
theorem readiness_timeout_aborts_w :
    ∃ msgs, (mainRun neverUp neverUp).2 = some (1, msgs) ∧ msgs ≠ []
      ∧ RunStage.maasStage ∉ (mainRun neverUp neverUp).1
      ∧ RunStage.nodesStage ∉ (mainRun neverUp neverUp).1 :=
  readiness_timeout_aborts neverUp neverUp (Or.inl (fun _ _ => rfl))

/-! ## Node discovery (`setup_maas_nodes` / `setup_node`)

`setup_maas_nodes` fetches the machine list, the two zones and the two
tags once, then runs `asyncio.wait([setup_node(i) for i in range(1, 11)])`.
Inside `setup_node` only the AMT ping is wrapped in `try/except`; every
later step (`ip neighbor show`, MAC extraction, `machines.create`,
`set_power`, `tags.add`, the `zones[num // 6]` index and `save`) raises
out of the coroutine on failure.  `asyncio.wait` runs every task to its
own completion and does not re-raise task exceptions; its return value is
discarded.  Remote and subprocess outcomes are modelled by a per-slot
oracle `NodeEnv`. -/

/-- A machine record held by the inventory controller. -/
structure Machine where
  hostname : String
  architecture : String
  mac_addresses : List String
  power_type : String
  power_parameters : List (String × String)
  tags : List String
  zone : Option String
deriving DecidableEq

/-- Oracle for one slot: the outcomes of the subprocess and remote calls
`setup_node` performs, in program order.  `neighbor` is the stdout of
`ip neighbor show {amt_ip}` when it exits 0, `none` when it exits
non-zero (in which case `run` raises). -/
structure NodeEnv where
  pingOk : Bool
  neighbor : Option String
  createOk : Bool
  setPowerOk : Bool
  addTagOk : Bool
  saveOk : Bool
deriving DecidableEq

/-- How one slot's workflow ends: normal completion with the machine
record it saved, the early `return` taken when the AMT ping fails (the
only caught failure, printed with its reason), or an uncaught exception
escaping the coroutine, labelled with the failing step. -/
inductive SlotOutcome
  | done (machine : Machine)
  | skipped (reason : String)
  | raised (step : String)
deriving DecidableEq

/-- Whether the workflow finished normally. -/
def SlotOutcome.isDone : SlotOutcome → Bool
  | .done _ => true
  | _ => false

/-- Whether the workflow took the caught-and-logged early return. -/
def SlotOutcome.isSkipped : SlotOutcome → Bool
  | .skipped _ => true
  | _ => false

/-- One slot's result: its outcome, the machine record it resolved
(found in the snapshot or freshly created), the payload of a
`client.machines.create` call if one was made, and the lines the slot
printed. -/
structure SlotResult where
  outcome : SlotOutcome
  used : Option Machine
  created : Option Machine
  log : List String
deriving DecidableEq

/-- Python `f"{num:02}"`: zero-pad to width 2. -/
def pad2 (n : Nat) : String :=
  if n < 10 then "0" ++ toString n else toString n

/-- Python `hostname = f"node{num:02}ob{ob_num}"`. -/
def hostnameOf (num ob_num : Nat) : String :=
  "node" ++ pad2 num ++ "ob" ++ toString ob_num

/-- Python `amtnum = num + 10; amt_ip = f"172.27.{ob_num}.{amtnum}"`. -/
def amtIp (ob_num num : Nat) : String :=
  "172.27." ++ toString ob_num ++ "." ++ toString (num + 10)

/-- Python `str.split(" ")` splits at every single space character (adjacent
spaces give empty fields), implemented directly over the character
list. -/
def splitSpacesAux : List Char → List Char → List String
  | [], acc => [String.mk acc.reverse]
  | c :: cs, acc =>
    if c = ' ' then String.mk acc.reverse :: splitSpacesAux cs []
    else splitSpacesAux cs (c :: acc)

/-- Python `neighbor.split(" ")`. -/
def splitSpaces (s : String) : List String :=
  splitSpacesAux s.toList []

/-- Python `mac = neighbor.split(" ")[-2]`; `none` models the `IndexError`
raised when the output has fewer than two space-separated fields. -/
def macOf (s : String) : Option String :=
  let parts := splitSpaces s
  if 2 ≤ parts.length then parts.get? (parts.length - 2) else none

/-- The zone-list index used by `machine.zone = zones[num // 6]`. -/
def zoneIndex (num : Nat) : Nat := num / 6

/-- The ordered zone list fetched once before fan-out:
`[zones.get("zone1"), zones.get("zone2")]`. -/
def obZones : List String := ["zone1", "zone2"]

/-- The tag list fetched once before fan-out. -/
def obTags : List String := ["physical", "use-fastpath-installer"]

/-- The payload of `client.machines.create(architecture="amd64",
mac_addresses=[mac], power_type="amt", power_parameters={"power_address":
amt_ip, "power_pass": "Password1+"}, hostname=hostname)`. -/
def newMachine (hostname mac amt_ip : String) : Machine :=
  { hostname := hostname
    architecture := "amd64"
    mac_addresses := [mac]
    power_type := "amt"
    power_parameters := [("power_address", amt_ip), ("power_pass", "Password1+")]
    tags := []
    zone := none }

/-- The tail of `setup_node` after the machine record is resolved:
`machine.set_power("amt", {...})`, the two `machine.tags.add(tag)` calls,
`machine.zone = zones[num // 6]` and `machine.save()`.  Any failure
raises (uncaught). -/
def finishOutcome (amt_ip : String) (zones tags : List String) (num : Nat)
    (env : NodeEnv) (m0 : Machine) : SlotOutcome :=
  if env.setPowerOk = false then .raised "set_power"
  else if env.addTagOk = false then .raised "tags.add"
  else
    match zones.get? (zoneIndex num) with
    | none => .raised "zone"
    | some z =>
      if env.saveOk = false then .raised "save"
      else .done { m0 with
        power_type := "amt"
        power_parameters := [("power_address", amt_ip), ("power_pass", "Password1+")]
        tags := m0.tags ++ tags
        zone := some z }

/-- Packaging of the workflow tail: the resolved machine and any create
payload are fixed before this point; only the `done` path prints the
"Finished setting up" line. -/
def finishNode (amt_ip hostname : String) (zones tags : List String) (num : Nat)
    (env : NodeEnv) (m0 : Machine) (created : Option Machine) : SlotResult :=
  let outcome := finishOutcome amt_ip zones tags num env m0
  { outcome := outcome
    used := some m0
    created := created
    log :=
      if outcome.isDone then
        ["Setting up " ++ hostname ++ "...", "Finished setting up " ++ hostname ++ "..."]
      else ["Setting up " ++ hostname ++ "..."] }

/-- Python `setup_node(num)` for one slot.  The ping failure is the only caught
error (`except Exception: print(...); return`).  The machine is resolved
against the pre-fetched snapshot: `if hostname in existing_hostnames:
machine = next(m for m in machines if m.hostname == hostname)` is the
first machine whose hostname matches, i.e. `machines.find?`; otherwise
`client.machines.create(...)` is called. -/
def setup_node (ob_num : Nat) (machines : List Machine) (zones tags : List String)
    (env : NodeEnv) (num : Nat) : SlotResult :=
  let amt_ip := amtIp ob_num num
  let hostname := hostnameOf num ob_num
  let startLog := "Setting up " ++ hostname ++ "..."
  if env.pingOk = false then
    { outcome := .skipped ("Couldn't contact AMT for " ++ hostname ++ "!")
      used := none
      created := none
      log := [startLog, "Couldn't contact AMT for " ++ hostname ++ "!"] }
  else
    match env.neighbor with
    | none =>
      { outcome := .raised "neighbor", used := none, created := none, log := [startLog] }
    | some out =>
      match macOf out with
      | none =>
        { outcome := .raised "mac", used := none, created := none, log := [startLog] }
      | some mac =>
        match machines.find? (fun m => m.hostname == hostname) with
        | some m => finishNode amt_ip hostname zones tags num env m none
        | none =>
          if env.createOk then
            finishNode amt_ip hostname zones tags num env
              (newMachine hostname mac amt_ip) (some (newMachine hostname mac amt_ip))
          else
            { outcome := .raised "create", used := none, created := none, log := [startLog] }

/-- The fan-out `asyncio.wait([setup_node(i) for i in range(1, 11)])`:
all ten workflows are started together, each runs to its own completion,
task exceptions are not re-raised, and the function returns after all
have finished.  The model returns the per-slot results for slots 1..10
in slot order. -/
def setup_maas_nodes (ob_num : Nat) (machines : List Machine)
    (env : Nat → NodeEnv) : List SlotResult :=
  (List.range' 1 10).map (fun num => setup_node ob_num machines obZones obTags (env num) num)

/-- The zone of the machine a finished slot saved, if it finished. -/
def outcomeZone : SlotOutcome → Option String
  | .done m => m.zone
  | _ => none

/-- Only the ping step can produce a skip; the workflow tail records the
resolved machine and the create payload whatever later step fails. -/
theorem finishNode_used_created (amt_ip hostname : String) (zones tags : List String)
    (num : Nat) (env : NodeEnv) (m0 : Machine) (created : Option Machine) :
    (finishNode amt_ip hostname zones tags num env m0 created).used = some m0
    ∧ (finishNode amt_ip hostname zones tags num env m0 created).created = created := by
  exact ⟨rfl, rfl⟩

/-- Evaluation of the workflow tail when every remote call succeeds. -/
theorem finishNode_ok (amt_ip hostname : String) (zones tags : List String)
    (num : Nat) (env : NodeEnv) (m0 : Machine) (created : Option Machine) (z : String)
    (hp : env.setPowerOk = true) (ht : env.addTagOk = true) (hs : env.saveOk = true)
    (hz : zones.get? (zoneIndex num) = some z) :
    finishNode amt_ip hostname zones tags num env m0 created =
      { outcome := SlotOutcome.done { m0 with
          power_type := "amt"
          power_parameters := [("power_address", amt_ip), ("power_pass", "Password1+")]
          tags := m0.tags ++ tags
          zone := some z }
        used := some m0
        created := created
        log := ["Setting up " ++ hostname ++ "...",
                "Finished setting up " ++ hostname ++ "..."] } := by
  have hz' : zones[zoneIndex num]? = some z := by
    rw [← List.get?_eq_getElem?]
    exact hz
  have ho : finishOutcome amt_ip zones tags num env m0 =
      SlotOutcome.done { m0 with
        power_type := "amt"
        power_parameters := [("power_address", amt_ip), ("power_pass", "Password1+")]
        tags := m0.tags ++ tags
        zone := some z } := by
    simp [finishOutcome, hp, ht, hs, hz']
  simp [finishNode, ho, SlotOutcome.isDone]

/-- Evaluation of `setup_node` down to the machine-resolution branch,
under a successful ping and neighbor lookup. -/
theorem setup_node_resolve (ob_num : Nat) (machines : List Machine)
    (zones tags : List String) (env : NodeEnv) (num : Nat) (s mac : String)
    (hping : env.pingOk = true) (hn : env.neighbor = some s)
    (hmac : macOf s = some mac) :
    setup_node ob_num machines zones tags env num =
      match machines.find? (fun m => m.hostname == hostnameOf num ob_num) with
      | some m =>
        finishNode (amtIp ob_num num) (hostnameOf num ob_num) zones tags num env m none
      | none =>
        if env.createOk then
          finishNode (amtIp ob_num num) (hostnameOf num ob_num) zones tags num env
            (newMachine (hostnameOf num ob_num) mac (amtIp ob_num num))
            (some (newMachine (hostnameOf num ob_num) mac (amtIp ob_num num)))
        else
          { outcome := SlotOutcome.raised "create", used := none, created := none,
            log := ["Setting up " ++ hostnameOf num ob_num ++ "..."] } := by
  simp [setup_node, hping, hn, hmac]

/-- Evaluation of `setup_node` when the snapshot already has the derived hostname:
the first matching machine is reused and no create call is made. -/
theorem setup_node_found (ob_num : Nat) (machines : List Machine)
    (zones tags : List String) (env : NodeEnv) (num : Nat) (s mac : String)
    (m : Machine) (hping : env.pingOk = true) (hn : env.neighbor = some s)
    (hmac : macOf s = some mac)
    (hfind : machines.find? (fun m2 => m2.hostname == hostnameOf num ob_num) = some m) :
    setup_node ob_num machines zones tags env num =
      finishNode (amtIp ob_num num) (hostnameOf num ob_num) zones tags num env m none := by
  rw [setup_node_resolve ob_num machines zones tags env num s mac hping hn hmac, hfind]

/-- Evaluation of `setup_node` when the snapshot lacks the derived hostname and the
create call succeeds: a machine with the derived attributes is created
and used. -/
theorem setup_node_missing (ob_num : Nat) (machines : List Machine)
    (zones tags : List String) (env : NodeEnv) (num : Nat) (s mac : String)
    (hping : env.pingOk = true) (hn : env.neighbor = some s)
    (hmac : macOf s = some mac)
    (hfind : machines.find? (fun m2 => m2.hostname == hostnameOf num ob_num) = none)
    (hcreate : env.createOk = true) :
    setup_node ob_num machines zones tags env num =
      finishNode (amtIp ob_num num) (hostnameOf num ob_num) zones tags num env
        (newMachine (hostnameOf num ob_num) mac (amtIp ob_num num))
        (some (newMachine (hostnameOf num ob_num) mac (amtIp ob_num num))) := by
  rw [setup_node_resolve ob_num machines zones tags env num s mac hping hn hmac, hfind]
  simp [hcreate]

/-- A fully successful slot environment. -/
def envOk : NodeEnv :=
  { pingOk := true
    neighbor := some "172.27.4.16 dev br0 lladdr aa:bb:cc:dd:ee:ff REACHABLE"
    createOk := true
    setPowerOk := true
    addTagOk := true
    saveOk := true }

/-- C1 fails on the code: slot 6, with every step succeeding, is saved
into "zone2" — the zone at index 6 / 6 = 1 — while the claimed index
floor((6 - 1) / 6) = 0 selects "zone1". -/
theorem zone_bucket_cex :
    outcomeZone (setup_node 4 [] obZones obTags envOk 6).outcome = some "zone2"
    ∧ obZones.get? ((6 - 1) / 6) = some "zone1"
    ∧ (("zone2" : String) == "zone1") = false := by
  refine ⟨?_, rfl, rfl⟩
  decide

/-- C1 amended: for every slot 1..10 whose workflow succeeds at every
step, the machine is assigned the zone at index `slot / 6` (not
`(slot - 1) / 6`) of the pre-fetched zone list [zone1, zone2]: slots 1–5
map to zone index 0 and slots 6–10 map to zone index 1. -/
theorem zone_bucket_amended :
    ∀ (ob_num : Nat) (machines : List Machine) (env : NodeEnv) (num : Nat)
      (s mac : String),
      env.pingOk = true → env.neighbor = some s → macOf s = some mac →
      env.createOk = true → env.setPowerOk = true → env.addTagOk = true →
      env.saveOk = true → 1 ≤ num → num ≤ 10 →
      outcomeZone (setup_node ob_num machines obZones obTags env num).outcome
        = some (if num ≤ 5 then "zone1" else "zone2")
      ∧ (zoneIndex num = 0 ↔ num ≤ 5) := by
  intro ob machines env num s mac hping hn hmac hcreate hp ht hs h1 h10
  have hidx : zoneIndex num = if num ≤ 5 then 0 else 1 := by
    unfold zoneIndex
    split <;> omega
  have hz : obZones.get? (zoneIndex num) = some (if num ≤ 5 then "zone1" else "zone2") := by
    rw [hidx]
    split <;> rfl
  refine ⟨?_, by rw [hidx]; split <;> simp_all⟩
  cases hfind : machines.find? (fun m2 => m2.hostname == hostnameOf num ob) with
  | some m =>
    rw [setup_node_found ob machines obZones obTags env num s mac m hping hn hmac hfind,
      finishNode_ok _ _ _ _ _ _ _ _ _ hp ht hs hz]
    rfl
  | none =>
    rw [setup_node_missing ob machines obZones obTags env num s mac hping hn hmac hfind hcreate,
      finishNode_ok _ _ _ _ _ _ _ _ _ hp ht hs hz]
    rfl

/-- Witness for the amended C1 at slot 7 with an empty snapshot. -/
theorem zone_bucket_amended_w :
    outcomeZone (setup_node 8 [] obZones obTags envOk 7).outcome = some "zone2"
    ∧ (zoneIndex 7 = 0 ↔ 7 ≤ 5) := by
  have h := zone_bucket_amended 8 [] envOk 7
    "172.27.4.16 dev br0 lladdr aa:bb:cc:dd:ee:ff REACHABLE" "aa:bb:cc:dd:ee:ff"
    (by decide) (by decide) (by decide) (by decide) (by decide) (by decide)
    (by decide) (by decide) (by decide)
  exact h

/-- A slot environment whose AMT ping succeeds but whose neighbor lookup
exits non-zero, so `run` raises. -/
def envNeighborFail : NodeEnv :=
  { pingOk := true
    neighbor := none
    createOk := true
    setPowerOk := true
    addTagOk := true
    saveOk := true }

/-- C4 fails on the code: a neighbor-resolution failure at slot 3 does
not end the slot's workflow as Skipped with a logged reason — the
workflow ends with an uncaught exception (neither done nor skipped) and
the slot's log carries no failure line. -/
theorem slot_failure_not_skipped_cex :
    (setup_node 4 [] obZones obTags envNeighborFail 3).outcome.isSkipped = false
    ∧ (setup_node 4 [] obZones obTags envNeighborFail 3).outcome.isDone = false
    ∧ (setup_node 4 [] obZones obTags envNeighborFail 3).log
        = ["Setting up node03ob4..."] := by
  refine ⟨?_, ?_, ?_⟩ <;> decide

/-- The slot ended in an uncaught exception at `step`: its outcome is
the raised constructor (so neither Done nor Skipped), and its log holds
only the start line — no failure reason was printed. -/
def raisedUnlogged (r : SlotResult) (step hostname : String) : Prop :=
  r.outcome = SlotOutcome.raised step
  ∧ r.outcome.isDone = false
  ∧ r.outcome.isSkipped = false
  ∧ r.log = ["Setting up " ++ hostname ++ "..."]

/-- Whatever the resolved machine and create payload, a raising tail
yields an unlogged uncaught exception for the slot. -/
theorem finishNode_raised (amt_ip hostname : String) (zones tags : List String)
    (num : Nat) (env : NodeEnv) (m0 : Machine) (created : Option Machine)
    (step : String)
    (h : finishOutcome amt_ip zones tags num env m0 = SlotOutcome.raised step) :
    raisedUnlogged (finishNode amt_ip hostname zones tags num env m0 created)
      step hostname := by
  refine ⟨?_, ?_, ?_, ?_⟩ <;>
    simp [finishNode, h, SlotOutcome.isDone, SlotOutcome.isSkipped]

/-- The raising cases of the workflow tail, step by step: a power-config
failure, a tag-association failure, and a save failure (the step that
persists the zone assignment). -/
theorem finishOutcome_raised_steps (amt_ip : String) (zones tags : List String)
    (num : Nat) (env : NodeEnv) (m0 : Machine) :
    (env.setPowerOk = false →
      finishOutcome amt_ip zones tags num env m0 = SlotOutcome.raised "set_power")
    ∧ (env.setPowerOk = true → env.addTagOk = false →
      finishOutcome amt_ip zones tags num env m0 = SlotOutcome.raised "tags.add")
    ∧ (∀ z, env.setPowerOk = true → env.addTagOk = true →
        zones.get? (zoneIndex num) = some z → env.saveOk = false →
        finishOutcome amt_ip zones tags num env m0 = SlotOutcome.raised "save") := by
  refine ⟨?_, ?_, ?_⟩
  · intro hp
    simp [finishOutcome, hp]
  · intro hp ht
    simp [finishOutcome, hp, ht]
  · intro z hp ht hz hs
    have hz' : zones[zoneIndex num]? = some z := by
      rw [← List.get?_eq_getElem?]
      exact hz
    simp [finishOutcome, hp, ht, hz', hs]

/-- Past ping, neighbor and MAC, with a succeeding create call, the
workflow always reaches its tail on some resolved machine. -/
theorem setup_node_resolved (ob_num : Nat) (machines : List Machine)
    (zones tags : List String) (env : NodeEnv) (num : Nat) (s mac : String)
    (hping : env.pingOk = true) (hn : env.neighbor = some s)
    (hmac : macOf s = some mac) (hcreate : env.createOk = true) :
    ∃ m0 created, setup_node ob_num machines zones tags env num =
      finishNode (amtIp ob_num num) (hostnameOf num ob_num) zones tags num env
        m0 created := by
  cases hfind : machines.find? (fun m2 => m2.hostname == hostnameOf num ob_num) with
  | some m =>
    exact ⟨m, none,
      setup_node_found ob_num machines zones tags env num s mac m hping hn hmac hfind⟩
  | none =>
    exact ⟨newMachine (hostnameOf num ob_num) mac (amtIp ob_num num),
      some (newMachine (hostnameOf num ob_num) mac (amtIp ob_num num)),
      setup_node_missing ob_num machines zones tags env num s mac hping hn hmac hfind
        hcreate⟩

/-- In the slot range 1..10 the zone-list indexing `zones[num // 6]`
itself cannot fail against the two-zone list. -/
theorem obZones_get_in_range (num : Nat) (h1 : 1 ≤ num) (h10 : num ≤ 10) :
    obZones.get? (zoneIndex num) = some (if num ≤ 5 then "zone1" else "zone2") := by
  have hidx : zoneIndex num = if num ≤ 5 then 0 else 1 := by
    unfold zoneIndex
    split <;> omega
  rw [hidx]
  split <;> rfl

/-- C4 amended: only the liveness-probe (AMT ping) failure is caught —
it ends the slot as Skipped with the reason printed to the log.  A
failure at any later step — neighbor resolution, MAC extraction, record
creation, power configuration, tag association, or the save that
persists the zone assignment (the zone indexing itself cannot fail for
slots 1..10 against the two-zone list) — ends that slot's workflow with
an uncaught exception: the outcome is the raised constructor, neither
Done nor Skipped, and the slot's log carries only its start line, no
failure reason.  No slot's failure propagates: the orchestrator waits
for all 10 slots, every slot's result is present, and slot i's result
depends only on slot i's own environment, so a sibling's failure can
neither change it nor cause an overall failure. -/
theorem slot_isolation_amended :
    ∀ (ob_num : Nat) (machines : List Machine) (env env2 : Nat → NodeEnv),
      (setup_maas_nodes ob_num machines env).length = 10
      ∧ (∀ i, i < 10 → ((setup_maas_nodes ob_num machines env).get? i).isSome = true)
      ∧ (∀ i, i < 10 → env (i + 1) = env2 (i + 1) →
          (setup_maas_nodes ob_num machines env).get? i
            = (setup_maas_nodes ob_num machines env2).get? i)
      ∧ (∀ num, (env num).pingOk = false →
          (setup_node ob_num machines obZones obTags (env num) num).outcome
            = SlotOutcome.skipped
                ("Couldn't contact AMT for " ++ hostnameOf num ob_num ++ "!")
          ∧ ("Couldn't contact AMT for " ++ hostnameOf num ob_num ++ "!")
              ∈ (setup_node ob_num machines obZones obTags (env num) num).log)
      ∧ (∀ num, (env num).pingOk = true → (env num).neighbor = none →
          raisedUnlogged (setup_node ob_num machines obZones obTags (env num) num)
            "neighbor" (hostnameOf num ob_num))
      ∧ (∀ num s, (env num).pingOk = true → (env num).neighbor = some s →
          macOf s = none →
          raisedUnlogged (setup_node ob_num machines obZones obTags (env num) num)
            "mac" (hostnameOf num ob_num))
      ∧ (∀ num s mac, (env num).pingOk = true → (env num).neighbor = some s →
          macOf s = some mac →
          machines.find? (fun m2 => m2.hostname == hostnameOf num ob_num) = none →
          (env num).createOk = false →
          raisedUnlogged (setup_node ob_num machines obZones obTags (env num) num)
            "create" (hostnameOf num ob_num))
      ∧ (∀ num s mac, (env num).pingOk = true → (env num).neighbor = some s →
          macOf s = some mac → (env num).createOk = true →
          (env num).setPowerOk = false →
          raisedUnlogged (setup_node ob_num machines obZones obTags (env num) num)
            "set_power" (hostnameOf num ob_num))
      ∧ (∀ num s mac, (env num).pingOk = true → (env num).neighbor = some s →
          macOf s = some mac → (env num).createOk = true →
          (env num).setPowerOk = true → (env num).addTagOk = false →
          raisedUnlogged (setup_node ob_num machines obZones obTags (env num) num)
            "tags.add" (hostnameOf num ob_num))
      ∧ (∀ num s mac, 1 ≤ num → num ≤ 10 →
          (env num).pingOk = true → (env num).neighbor = some s →
          macOf s = some mac → (env num).createOk = true →
          (env num).setPowerOk = true → (env num).addTagOk = true →
          (env num).saveOk = false →
          raisedUnlogged (setup_node ob_num machines obZones obTags (env num) num)
            "save" (hostnameOf num ob_num))
      ∧ (∀ num, 1 ≤ num → num ≤ 10 →
          (obZones.get? (zoneIndex num)).isSome = true) := by
  intro ob machines env env2
  have hr : List.range' 1 10 = [1, 2, 3, 4, 5, 6, 7, 8, 9, 10] := rfl
  refine ⟨?_, ?_, ?_, ?_, ?_, ?_, ?_, ?_, ?_, ?_, ?_⟩
  · simp [setup_maas_nodes]
  · intro i hi
    simp only [setup_maas_nodes, hr]
    interval_cases i <;> rfl
  · intro i hi h
    simp only [setup_maas_nodes, hr]
    interval_cases i <;> simp_all
  · intro num h
    constructor <;> simp [setup_node, h]
  · intro num hping hn
    refine ⟨?_, ?_, ?_, ?_⟩ <;>
      simp [setup_node, hping, hn, SlotOutcome.isDone, SlotOutcome.isSkipped]
  · intro num s hping hn hmac
    refine ⟨?_, ?_, ?_, ?_⟩ <;>
      simp [setup_node, hping, hn, hmac, SlotOutcome.isDone, SlotOutcome.isSkipped]
  · intro num s mac hping hn hmac hfind hcreate
    rw [setup_node_resolve ob machines obZones obTags (env num) num s mac hping hn hmac,
      hfind]
    refine ⟨?_, ?_, ?_, ?_⟩ <;>
      simp [hcreate, SlotOutcome.isDone, SlotOutcome.isSkipped]
  · intro num s mac hping hn hmac hcreate hp
    obtain ⟨m0, created, heq⟩ :=
      setup_node_resolved ob machines obZones obTags (env num) num s mac hping hn hmac
        hcreate
    rw [heq]
    exact finishNode_raised _ _ _ _ _ _ _ _ _
      ((finishOutcome_raised_steps (amtIp ob num) obZones obTags num (env num) m0).1 hp)
  · intro num s mac hping hn hmac hcreate hp ht
    obtain ⟨m0, created, heq⟩ :=
      setup_node_resolved ob machines obZones obTags (env num) num s mac hping hn hmac
        hcreate
    rw [heq]
    exact finishNode_raised _ _ _ _ _ _ _ _ _
      ((finishOutcome_raised_steps (amtIp ob num) obZones obTags num (env num) m0).2.1
        hp ht)
  · intro num s mac h1 h10 hping hn hmac hcreate hp ht hs
    obtain ⟨m0, created, heq⟩ :=
      setup_node_resolved ob machines obZones obTags (env num) num s mac hping hn hmac
        hcreate
    rw [heq]
    exact finishNode_raised _ _ _ _ _ _ _ _ _
      ((finishOutcome_raised_steps (amtIp ob num) obZones obTags num (env num) m0).2.2
        (if num ≤ 5 then "zone1" else "zone2") hp ht (obZones_get_in_range num h1 h10) hs)
  · intro num h1 h10
    rw [obZones_get_in_range num h1 h10]
    rfl

/-- A slot environment whose AMT ping fails (the probe exits non-zero). -/
def envPingFail : NodeEnv :=
  { pingOk := false
    neighbor := none
    createOk := true
    setPowerOk := true
    addTagOk := true
    saveOk := true }

/-- A slot environment whose `set_power` call fails after a successful
ping and neighbor lookup. -/
def envSetPowerFail : NodeEnv :=
  { envOk with setPowerOk := false }

/-- A slot environment whose final `save` call fails. -/
def envSaveFail : NodeEnv :=
  { envOk with saveOk := false }

/-- A fan-out environment: slot 2's ping fails, slot 3's neighbor lookup
fails, slot 4's power configuration fails, slot 5's save fails, every
other slot succeeds. -/
def envMix : Nat → NodeEnv := fun n =>
  if n == 2 then envPingFail
  else if n == 3 then envNeighborFail
  else if n == 4 then envSetPowerFail
  else if n == 5 then envSaveFail
  else envOk

/-- Witness for the amended C4 on a concrete mixed environment. -/
theorem slot_isolation_amended_w :
    (setup_maas_nodes 4 [] envMix).length = 10
    ∧ (∀ i, i < 10 → ((setup_maas_nodes 4 [] envMix).get? i).isSome = true)
    ∧ (∀ i, i < 10 → envMix (i + 1) = envMix (i + 1) →
        (setup_maas_nodes 4 [] envMix).get? i = (setup_maas_nodes 4 [] envMix).get? i)
    ∧ (∀ num, (envMix num).pingOk = false →
        (setup_node 4 [] obZones obTags (envMix num) num).outcome
          = SlotOutcome.skipped ("Couldn't contact AMT for " ++ hostnameOf num 4 ++ "!")
        ∧ ("Couldn't contact AMT for " ++ hostnameOf num 4 ++ "!")
            ∈ (setup_node 4 [] obZones obTags (envMix num) num).log)
    ∧ (∀ num, (envMix num).pingOk = true → (envMix num).neighbor = none →
        raisedUnlogged (setup_node 4 [] obZones obTags (envMix num) num)
          "neighbor" (hostnameOf num 4))
    ∧ (∀ num s, (envMix num).pingOk = true → (envMix num).neighbor = some s →
        macOf s = none →
        raisedUnlogged (setup_node 4 [] obZones obTags (envMix num) num)
          "mac" (hostnameOf num 4))
    ∧ (∀ num s mac, (envMix num).pingOk = true → (envMix num).neighbor = some s →
        macOf s = some mac →
        List.find? (fun m2 => m2.hostname == hostnameOf num 4) ([] : List Machine)
          = none →
        (envMix num).createOk = false →
        raisedUnlogged (setup_node 4 [] obZones obTags (envMix num) num)
          "create" (hostnameOf num 4))
    ∧ (∀ num s mac, (envMix num).pingOk = true → (envMix num).neighbor = some s →
        macOf s = some mac → (envMix num).createOk = true →
        (envMix num).setPowerOk = false →
        raisedUnlogged (setup_node 4 [] obZones obTags (envMix num) num)
          "set_power" (hostnameOf num 4))
    ∧ (∀ num s mac, (envMix num).pingOk = true → (envMix num).neighbor = some s →
        macOf s = some mac → (envMix num).createOk = true →
        (envMix num).setPowerOk = true → (envMix num).addTagOk = false →
        raisedUnlogged (setup_node 4 [] obZones obTags (envMix num) num)
          "tags.add" (hostnameOf num 4))
    ∧ (∀ num s mac, 1 ≤ num → num ≤ 10 →
        (envMix num).pingOk = true → (envMix num).neighbor = some s →
        macOf s = some mac → (envMix num).createOk = true →
        (envMix num).setPowerOk = true → (envMix num).addTagOk = true →
        (envMix num).saveOk = false →
        raisedUnlogged (setup_node 4 [] obZones obTags (envMix num) num)
          "save" (hostnameOf num 4))
    ∧ (∀ num, 1 ≤ num → num ≤ 10 →
        (obZones.get? (zoneIndex num)).isSome = true) :=
  slot_isolation_amended 4 [] envMix envMix

/-- C6: the hostname is derived deterministically — slot 5 under rack
identifier 8 yields "node05ob8" — and, once the ping and neighbor
resolution have succeeded: when a machine with the derived hostname is
in the pre-fetched snapshot the workflow reuses it and makes no create
call, and only when it is absent does it create a machine with
architecture "amd64", the resolved hardware address, power type "amt"
and the derived power parameters; so re-running discovery against a
snapshot containing the hostname never creates a duplicate machine. -/
theorem hostname_reuse :
    hostnameOf 5 8 = "node05ob8"
    ∧ ∀ (ob_num : Nat) (machines : List Machine) (env : NodeEnv) (num : Nat)
        (s mac : String) (m : Machine),
        env.pingOk = true → env.neighbor = some s → macOf s = some mac →
        ((machines.find? (fun m2 => m2.hostname == hostnameOf num ob_num) = some m →
            (setup_node ob_num machines obZones obTags env num).created = none
            ∧ (setup_node ob_num machines obZones obTags env num).used = some m)
        ∧ (machines.find? (fun m2 => m2.hostname == hostnameOf num ob_num) = none →
            env.createOk = true →
            (setup_node ob_num machines obZones obTags env num).created
              = some { hostname := hostnameOf num ob_num
                       architecture := "amd64"
                       mac_addresses := [mac]
                       power_type := "amt"
                       power_parameters := [("power_address", amtIp ob_num num),
                                            ("power_pass", "Password1+")]
                       tags := []
                       zone := none }
            ∧ (setup_node ob_num machines obZones obTags env num).used
              = some (newMachine (hostnameOf num ob_num) mac (amtIp ob_num num)))) := by
  refine ⟨by decide, ?_⟩
  intro ob machines env num s mac m hping hn hmac
  constructor
  · intro hfind
    rw [setup_node_found ob machines obZones obTags env num s mac m hping hn hmac hfind]
    exact ⟨rfl, rfl⟩
  · intro hfind hcreate
    rw [setup_node_missing ob machines obZones obTags env num s mac hping hn hmac hfind
      hcreate]
    exact ⟨rfl, rfl⟩

/-- A snapshot machine that already carries the slot-5 hostname of rack 8. -/
def machine5 : Machine :=
  { hostname := "node05ob8"
    architecture := "amd64"
    mac_addresses := ["aa:bb:cc:dd:ee:ff"]
    power_type := "amt"
    power_parameters := []
    tags := []
    zone := none }

/-- Witness for C6: re-running slot 5 of rack 8 against a snapshot that
already holds "node05ob8" reuses that machine and creates nothing. -/
theorem hostname_reuse_w :
    (List.find? (fun m2 => m2.hostname == hostnameOf 5 8) [machine5] = some machine5 →
        (setup_node 8 [machine5] obZones obTags envOk 5).created = none
        ∧ (setup_node 8 [machine5] obZones obTags envOk 5).used = some machine5)
    ∧ (List.find? (fun m2 => m2.hostname == hostnameOf 5 8) [machine5] = none →
        envOk.createOk = true →
        (setup_node 8 [machine5] obZones obTags envOk 5).created
          = some { hostname := hostnameOf 5 8
                   architecture := "amd64"
                   mac_addresses := ["aa:bb:cc:dd:ee:ff"]
                   power_type := "amt"
                   power_parameters := [("power_address", amtIp 8 5),
                                        ("power_pass", "Password1+")]
                   tags := []
                   zone := none }
        ∧ (setup_node 8 [machine5] obZones obTags envOk 5).used
          = some (newMachine (hostnameOf 5 8) "aa:bb:cc:dd:ee:ff" (amtIp 8 5))) :=
  hostname_reuse.2 8 [machine5] envOk 5
    "172.27.4.16 dev br0 lladdr aa:bb:cc:dd:ee:ff REACHABLE" "aa:bb:cc:dd:ee:ff"
    machine5 (by decide) (by decide) (by decide)

/-! ## Rack-identifier resolution (`calculate_ob_num` and `main`)

Python source:
```
def calculate_ob_num():
    hostname = platform.node()
    matches = re.search(r"(\d+)$", hostname)
    try:
        return int(matches.groups()[0])
    except Exception as err:
        print(f"Couldn't parse hostname {hostname}: {err}")
        sys.exit(1)
```
and in `main`:
```
    if args.ob_num:
        ob_num = args.ob_num
    else:
        print("No Orange Box number passed in, calculating it from hostname...")
        ob_num = calculate_ob_num()
```
When the regex does not match, `matches` is `None` and `.groups()`
raises; the `except` clause catches it and the process exits with
code 1.  `if args.ob_num:` is Python truthiness: false for `None` (the
argument was not passed) and for `0`. -/

/-- Python `int(...)` on a nonempty run of decimal digits. -/
def digitsVal (ds : List Char) : Nat :=
  ds.foldl (fun a c => a * 10 + (c.toNat - 48)) 0

/-- Python `re.search(r"(\d+)$", hostname)`: the maximal trailing run of
decimal digits, `none` when the hostname does not end in a digit. -/
def trailingDigits (s : String) : Option (List Char) :=
  let ds := (s.toList.reverse.takeWhile Char.isDigit).reverse
  if ds.isEmpty then none else some ds

/-- Python `calculate_ob_num()` on the given hostname; `Except.error 1` models
the caught parse failure ending in `sys.exit(1)`. -/
def calculate_ob_num (hostname : String) : Except Nat Nat :=
  match trailingDigits hostname with
  | some ds => Except.ok (digitsVal ds)
  | none => Except.error 1

/-- The `--ob-num` handling in `main`: a passed value of 0 is falsy, so
it is treated exactly like an absent argument. -/
def resolveObNum (arg : Option Int) (hostname : String) : Except Nat Int :=
  match arg with
  | some v =>
    if v = 0 then (calculate_ob_num hostname).map Int.ofNat else Except.ok v
  | none => (calculate_ob_num hostname).map Int.ofNat

/-- C10: the rack-identifier argument is optional and a passed value of
0 is treated as absent — both fall back to parsing the trailing decimal
digits of the hostname; any non-zero value is used as passed; and a
hostname with no trailing digits makes the process exit with code 1
rather than raising. -/
theorem ob_num_resolution :
    (∀ hostname, resolveObNum (some 0) hostname = resolveObNum none hostname)
    ∧ (∀ (v : Int) (hostname : String), v ≠ 0 →
        resolveObNum (some v) hostname = Except.ok v)
    ∧ (∀ s : String, (∀ c, s.toList.getLast? = some c → c.isDigit = false) →
        resolveObNum none s = Except.error 1)
    ∧ calculate_ob_num "OrangeBox12" = Except.ok 12
    ∧ resolveObNum none "OrangeBox" = Except.error 1 := by
  refine ⟨?_, ?_, ?_, ?_, ?_⟩
  · intro hostname
    simp [resolveObNum]
  · intro v hostname hv
    simp [resolveObNum, hv]
  · intro s h
    have hnil : s.toList.reverse.takeWhile Char.isDigit = [] := by
      cases hrev : s.toList.reverse with
      | nil => rfl
      | cons c rest =>
        have hc : s.toList.getLast? = some c := by
          rw [← List.head?_reverse, hrev]
          rfl
        simp [List.takeWhile_cons, h c hc]
    have htd : trailingDigits s = none := by
      simp only [trailingDigits, hnil, List.reverse_nil]
      rfl
    simp [resolveObNum, calculate_ob_num, htd, Except.map]
  · rfl
  · rfl

/-- Witness for C10 at concrete inputs. -/
theorem ob_num_resolution_w :
    resolveObNum (some 7) "OrangeBox" = Except.ok 7
    ∧ resolveObNum none "OrangeBox" = Except.error 1 :=
  ⟨ob_num_resolution.2.1 7 "OrangeBox" (by decide), ob_num_resolution.2.2.2.2⟩

end Orangebox
